import Mathlib

/-!
Verification of the segment-selection pipeline of the VideoToShorts backend.

The development shallowly embeds the Python modules
`backend/video_processor.py`, `backend/video_processing.py` and
`backend/segment_extractor.py`:

* Python `float` timestamps, durations, scores and confidences are embedded
  as exact rationals (`ℚ`); none of the verified properties depends on
  binary floating-point rounding.
* Python strings are embedded as Lean `String`s, with the Python string
  operations (`.strip()`, `.lower()`, `in`, `.split()`, `+` concatenation)
  re-implemented on the character list so that they compute by kernel
  reduction.
* Calls to external services (the Gemini model, ffmpeg, yt-dlp) are the only
  effectful points; they are modelled by explicit outcome parameters, and
  the purely deterministic code around them is embedded as Lean functions.
* Python exceptions are modelled with `Except String`; an `Except.error`
  value is an exception propagating out of the embedded function.
-/

namespace VideoToShorts

/-- Embedding of Python `str.lower()` (ASCII case folding suffices for the
fixed keyword lexicon and the transcripts considered here). -/
def pyLower (s : String) : String :=
  ⟨s.data.map Char.toLower⟩

/-- Containment of one character list in another: `needle` occurs as a
contiguous infix of `hay`.  Structural so that it computes by kernel
reduction. -/
def listContains (hay needle : List Char) : Bool :=
  if needle.isPrefixOf hay then true
  else
    match hay with
    | [] => false
    | _ :: t => listContains t needle

/-- Embedding of the Python substring test `needle in hay`. -/
def pyContains (hay needle : String) : Bool :=
  listContains hay.data needle.data

/-- Embedding of Python `str.strip()`: removes leading and trailing
whitespace. -/
def pyStrip (s : String) : String :=
  ⟨((s.data.dropWhile Char.isWhitespace).reverse.dropWhile Char.isWhitespace).reverse⟩

/-- Word count used for Python `len(s.split())`: the number of maximal runs
of non-whitespace characters. -/
def pyWordCount (s : String) : Nat :=
  (s.data.foldl
    (fun p c =>
      if c.isWhitespace then (false, p.2)
      else if p.1 then (true, p.2) else (true, p.2 + 1))
    ((false : Bool), (0 : Nat))).2

/-- Embedding of Python `sep.join(parts)`. -/
def pyJoin (sep : String) : List String → String
  | [] => ""
  | [x] => x
  | x :: xs => x ++ sep ++ pyJoin sep xs

/-- Left fold of string concatenation, the shape of the Python pattern
`acc = ""` followed by repeated `acc += part`. -/
def concatParts (parts : List String) : String :=
  parts.foldl (fun a b => a ++ b) ""

theorem foldl_append_data (parts : List String) (acc : String) :
    (parts.foldl (fun a b => a ++ b) acc).data
      = acc.data ++ (parts.map String.data).flatten := by
  induction parts generalizing acc with
  | nil => simp
  | cons p ps ih => simp [List.foldl_cons, ih]

theorem concatParts_data (parts : List String) :
    (concatParts parts).data = (parts.map String.data).flatten := by
  simpa using foldl_append_data parts ""

theorem pyStrip_eq_empty_iff (s : String) :
    pyStrip s = "" ↔ ∀ c ∈ s.data, c.isWhitespace = true := by
  constructor
  · intro h c hc
    have hdata : ((s.data.dropWhile Char.isWhitespace).reverse.dropWhile
        Char.isWhitespace).reverse = [] := congrArg String.data h
    have h1 : (s.data.dropWhile Char.isWhitespace).reverse.dropWhile
        Char.isWhitespace = [] := by
      simpa using congrArg List.reverse hdata
    have h2 : ∀ x ∈ (s.data.dropWhile Char.isWhitespace).reverse,
        x.isWhitespace = true := List.dropWhile_eq_nil_iff.mp h1
    have h3 : ∀ x ∈ s.data.dropWhile Char.isWhitespace,
        x.isWhitespace = true := fun x hx => h2 x (List.mem_reverse.mpr hx)
    have hsplit := List.takeWhile_append_dropWhile
      (p := Char.isWhitespace) (l := s.data)
    rcases List.mem_append.mp (by rw [hsplit]; exact hc) with h4 | h4
    · exact List.mem_takeWhile_imp h4
    · exact h3 c h4
  · intro h
    have h1 : s.data.dropWhile Char.isWhitespace = [] :=
      List.dropWhile_eq_nil_iff.mpr h
    simp [pyStrip, h1]

theorem pyStrip_ne_empty {s : String} {c : Char}
    (hc : c ∈ s.data) (hw : c.isWhitespace = false) : pyStrip s ≠ "" := by
  intro h
  have := (pyStrip_eq_empty_iff s).mp h c hc
  rw [this] at hw
  exact absurd hw (by simp)

/-- If a string with a non-whitespace character occurs among the parts, the
concatenation of the parts does not strip to the empty string. -/
theorem pyStrip_concatParts_ne_empty {parts : List String} {s : String}
    (hs : s ∈ parts) (hne : pyStrip s ≠ "") : pyStrip (concatParts parts) ≠ "" := by
  have hc : ∃ c ∈ s.data, c.isWhitespace = false := by
    by_contra hno
    push_neg at hno
    exact hne ((pyStrip_eq_empty_iff s).mpr (by
      intro c hcmem
      have := hno c hcmem
      exact eq_true_of_ne_false this))
  rcases hc with ⟨c, hcmem, hcw⟩
  have hmem : c ∈ (concatParts parts).data := by
    rw [concatParts_data]
    exact List.mem_flatten.mpr ⟨s.data, List.mem_map_of_mem String.data hs, hcmem⟩
  exact pyStrip_ne_empty hmem hcw

/-- A left fold that either keeps the accumulator or appends one element
cannot shrink it. -/
theorem foldl_length_mono {α β : Type} (g : List α → β → List α)
    (hg : ∀ acc b, acc.length ≤ (g acc b).length) :
    ∀ (l : List β) (acc : List α), acc.length ≤ (l.foldl g acc).length := by
  intro l
  induction l with
  | nil => intro acc; simp
  | cons b bs ih =>
    intro acc
    calc acc.length ≤ (g acc b).length := hg acc b
      _ ≤ (bs.foldl g (g acc b)).length := ih (g acc b)

/-- A left fold that appends at most one element per step grows the
accumulator by at most the length of the traversed list. -/
theorem foldl_length_le {α β : Type} (g : List α → β → List α)
    (hg : ∀ acc b, (g acc b).length ≤ acc.length + 1) :
    ∀ (l : List β) (acc : List α),
      (l.foldl g acc).length ≤ acc.length + l.length := by
  intro l
  induction l with
  | nil => intro acc; simp
  | cons b bs ih =>
    intro acc
    calc (bs.foldl g (g acc b)).length
        ≤ (g acc b).length + bs.length := ih (g acc b)
      _ ≤ acc.length + 1 + bs.length := by
          exact Nat.add_le_add_right (hg acc b) _
      _ = acc.length + (b :: bs).length := by
          simp [List.length_cons]
          omega

/-- Untyped JSON-like value, the shape of the raw Gladia transcript payload
handed to `parse_gladia_transcript`.  Python dictionaries are association
lists (insertion order preserved, keys unique). -/
inductive JVal where
  | null
  | bool (b : Bool)
  | num (q : ℚ)
  | str (s : String)
  | arr (elems : List JVal)
  | obj (fields : List (String × JVal))

/-- Lookup of a key in an embedded Python dictionary. -/
def jlookup (fields : List (String × JVal)) (key : String) : Option JVal :=
  match fields with
  | [] => none
  | (k, v) :: rest => if k = key then some v else jlookup rest key

/-- Embedding of Python `value.get(key, default)`: succeeds on a dictionary,
raises `AttributeError` on any other value. -/
def pyDictGet (v : JVal) (key : String) (dflt : JVal) : Except String JVal :=
  match v with
  | .obj fields => .ok ((jlookup fields key).getD dflt)
  | _ => .error ("AttributeError: value has no attribute get (key " ++ key ++ ")")

namespace SegmentExtractor

/-- One utterance as produced by `parse_gladia_transcript` from the raw
payload.  The constructor stores whatever JSON value each `utterance.get`
returned, exactly as the Python `TranscriptSegment` dataclass does (Python
dataclasses perform no runtime type check). -/
structure RawUtterance where
  text : JVal
  start : JVal
  stop : JVal
  speaker : JVal
  confidence : JVal
  words : JVal

/-- Field extraction for one utterance dictionary, with the defaults from
`segment_extractor.py` / `video_processing.py` (`text` defaults to the empty
string, `start`/`end`/`speaker`/`confidence` default to `0`, `words` to the
empty list).  The Python field name `end` is spelled `stop` here because
`end` is a Lean keyword. -/
def parse_utterance_fields (fields : List (String × JVal)) : RawUtterance :=
  ⟨(jlookup fields "text").getD (.str ""),
   (jlookup fields "start").getD (.num 0),
   (jlookup fields "end").getD (.num 0),
   (jlookup fields "speaker").getD (.num 0),
   (jlookup fields "confidence").getD (.num 0),
   (jlookup fields "words").getD (.arr [])⟩

/-- Iteration of the Python loop `for utterance in utterances` followed by
`utterance.get(...)` on each element: a non-dictionary element raises
`AttributeError`. -/
def parse_utterance (u : JVal) : Except String RawUtterance :=
  match u with
  | .obj fields => .ok (parse_utterance_fields fields)
  | _ => .error "AttributeError: utterance has no attribute get"

/-- Embedding of `parse_gladia_transcript` (identical code in
`segment_extractor.py` lines 45-67 and `video_processing.py` lines 48-70).
Any exception inside the body is caught and re-raised as
`ValueError("Invalid transcript format: ...")`.  A non-list `utterances`
value is iterated by Python: iterating a non-empty string or dictionary
yields characters/keys on which `.get` raises `AttributeError`, iterating an
empty string or dictionary yields nothing, and numbers/booleans/None raise
`TypeError`. -/
def parse_gladia_transcript (gladia_result : JVal) : Except String (List RawUtterance) :=
  let body : Except String (List RawUtterance) := do
    let result ← pyDictGet gladia_result "result" (.obj [])
    let transcription ← pyDictGet result "transcription" (.obj [])
    let utterances ← pyDictGet transcription "utterances" (.arr [])
    match utterances with
    | .arr elems => elems.mapM parse_utterance
    | .str s =>
        if s.data.isEmpty then .ok []
        else .error "AttributeError: str has no attribute get"
    | .obj fields =>
        if fields.isEmpty then .ok []
        else .error "AttributeError: str has no attribute get"
    | _ => .error "TypeError: object is not iterable"
  match body with
  | .ok segments => .ok segments
  | .error e => .error ("Invalid transcript format: " ++ e)

/-- Typed utterance used by the selection algorithms (all of which are only
ever run on transcripts whose fields have their documented types: `text` a
string, `start`/`end`/`confidence` numbers, `speaker` an integer).  The
pass-through `words` list is never read by any selector and is omitted.
The Python field name `end` is spelled `stop` here because `end` is a Lean
keyword. -/
structure TranscriptSegment where
  text : String
  start : ℚ
  stop : ℚ
  speaker : ℤ
  confidence : ℚ
deriving Repr, DecidableEq

/-- The `key_moment` dictionary of a suggested segment (`timestamp` and
`description` keys, either of which may be absent). -/
structure KeyMoment where
  timestamp : Option ℚ
  description : Option String
deriving Repr, DecidableEq

/-- Embedding of the `SuggestedSegment` dataclass of `segment_extractor.py`. -/
structure SuggestedSegment where
  rank : ℤ
  start_time : ℚ
  end_time : ℚ
  duration : ℚ
  text : String
  segments_included : List ℕ
  reasoning : String
  engagement_score : ℚ
  viral_potential : String
  key_moment : KeyMoment
deriving Repr, DecidableEq

/-- One entry of the `viral_segments` array of a parsed Gemini response.
Each field is optional: the Python code reads every field with
`seg_data.get(key, default)` (in `extract_suggested_segments`) or with
`seg_data[key]` (in `extract_best_segment`), so only presence/absence and
the value matter.  Type confusion inside a present field (for example a
string where a number is expected) is outside this model. -/
structure ViralSegJson where
  rank : Option ℤ
  start_time : Option ℚ
  end_time : Option ℚ
  duration : Option ℚ
  text : Option String
  segments_included : Option (List ℕ)
  reasoning : Option String
  engagement_score : Option ℚ
  viral_potential : Option String
  key_moment : Option KeyMoment
deriving Repr, DecidableEq

/-- A JSON-decoded Gemini response: the `viral_segments` key may be absent
(`none`) or hold a list of entries. -/
structure ViralResponseJson where
  viral_segments : Option (List ViralSegJson)
deriving Repr, DecidableEq

/-- Outcome of the external Gemini interaction, the single effectful step of
segment extraction: the API call itself may raise; otherwise the returned
text is fence-stripped (pure string work that cannot fail) and then JSON
decoding either raises `json.JSONDecodeError` or yields a structured
response. -/
inductive ProposerOutcome where
  | raises (msg : String)
  | jsonError (msg : String)
  | parsed (response : ViralResponseJson)
deriving Repr, DecidableEq

/-- Embedding of `IntelligentSegmentExtractor._fallback_segment_selection`
(`segment_extractor.py` lines 265-317).  For `max_segments = 0` the Python
code would raise `ZeroDivisionError` computing `total_duration / 0`; every
claim about the fallback assumes `max_segments ≥ 1` and the embedding is
simply total (rational division by zero yields `0`, and `range 0` makes the
interval list empty). -/
def total_duration_of : List TranscriptSegment → ℚ
  | [] => 0
  | s₀ :: rest => rest.foldl (fun m s => max m s.stop) s₀.stop

/-- One step of the interval loop of
`IntelligentSegmentExtractor._fallback_segment_selection`: the enumerated
interval `(i, start_offset)` either contributes one suggested segment or is
skipped (when its window contains no utterance start with non-whitespace
text, or when `i` has run past `max_segments`, mirroring the `break`). -/
def fallback_interval_step (segments : List TranscriptSegment)
    (target_duration : ℚ) (max_segments : ℕ) (total_duration : ℚ)
    (acc : List SuggestedSegment) (p : ℕ × ℚ) : List SuggestedSegment :=
  let i := p.1
  let start_offset := p.2
  if max_segments ≤ i then acc
  else
    let segment_start := start_offset
    let segment_end := min (segment_start + target_duration) total_duration
    let included := segments.enum.filter
      (fun q => decide (segment_start ≤ q.2.start ∧ q.2.start < segment_end))
    let combined_text := concatParts (included.map (fun q => " " ++ q.2.text))
    let segments_included := included.map (fun q => q.1)
    if pyStrip combined_text = "" then acc
    else acc ++ [{ rank := (i : ℤ) + 1
                   start_time := segment_start
                   end_time := segment_end
                   duration := segment_end - segment_start
                   text := pyStrip combined_text
                   segments_included := segments_included
                   reasoning := "Fallback selection - segment " ++ toString (i + 1)
                     ++ " with " ++ toString (pyWordCount combined_text) ++ " words"
                   engagement_score := 6
                   viral_potential := "Medium - fallback selection"
                   key_moment :=
                     ⟨some (segment_start + (segment_end - segment_start) / 2),
                      some "Mid-segment"⟩ }]

def fallback_segment_selection (segments : List TranscriptSegment)
    (target_duration : ℚ) (max_segments : ℕ) : List SuggestedSegment :=
  match segments with
  | [] => []
  | s₀ :: rest =>
    let total_duration : ℚ := total_duration_of (s₀ :: rest)
    let intervals : List ℚ :=
      if max_segments = 1 then [0]
      else if max_segments = 2 then [0, total_duration * (5 / 10)]
      else (List.range max_segments).map
        (fun i : ℕ => (i : ℚ) * (total_duration / (max_segments : ℚ)))
    intervals.enum.foldl
      (fallback_interval_step (s₀ :: rest) target_duration max_segments total_duration)
      []

/-- Embedding of `IntelligentSegmentExtractor.extract_suggested_segments`
(`segment_extractor.py` lines 198-263), from the point where the transcript
has been parsed into `segments` (transcript parsing and prompt construction
precede the external call and cannot influence the outcome parameter).
An empty transcript raises `ValueError("No transcript segments found")`,
which the surrounding handler turns into a fallback call on the empty list;
a raising API call and a JSON decode failure are handled the same way; a
decoded response without the `viral_segments` key raises
`ValueError("Invalid response format")`, again caught by the outer handler
and sent to the fallback.  A present `viral_segments` list is converted
entry-wise with `.get` defaults. -/
def extract_suggested_segments (segments : List TranscriptSegment)
    (outcome : ProposerOutcome) (target_duration : ℚ) (max_segments : ℕ) :
    List SuggestedSegment :=
  if segments.isEmpty then
    fallback_segment_selection segments target_duration max_segments
  else
    match outcome with
    | .raises _ => fallback_segment_selection segments target_duration max_segments
    | .jsonError _ => fallback_segment_selection segments target_duration max_segments
    | .parsed response =>
      match response.viral_segments with
      | none => fallback_segment_selection segments target_duration max_segments
      | some entries =>
        entries.map (fun seg_data =>
          { rank := seg_data.rank.getD 0
            start_time := seg_data.start_time.getD 0
            end_time := seg_data.end_time.getD target_duration
            duration := seg_data.duration.getD target_duration
            text := seg_data.text.getD ""
            segments_included := seg_data.segments_included.getD []
            reasoning := seg_data.reasoning.getD ""
            engagement_score := seg_data.engagement_score.getD 7
            viral_potential := seg_data.viral_potential.getD "Medium"
            key_moment := seg_data.key_moment.getD ⟨none, none⟩ })

/-- One element of the `suggested_segments` array in the response of
`get_ai_suggested_segments`: a suggested segment plus the added `title`
key. -/
structure SegmentPayload where
  rank : ℤ
  start_time : ℚ
  end_time : ℚ
  duration : ℚ
  text : String
  segments_included : List ℕ
  reasoning : String
  engagement_score : ℚ
  viral_potential : String
  key_moment : KeyMoment
  title : String
deriving Repr, DecidableEq

/-- Response dictionary of `get_ai_suggested_segments`.  Keys that appear in
only one of the success/failure shapes are optional. -/
structure ApiResponse where
  success : Bool
  error : Option String
  suggested_segments : List SegmentPayload
  total_suggestions : ℕ
  target_duration : Option ℚ
  analysis_method : Option String
deriving Repr, DecidableEq

/-- Outcome of the call `extractor.extract_suggested_segments(...)` as seen
by `get_ai_suggested_segments`: either the call raised (for example the
`NameError` produced when transcript parsing fails and the exception handler
references the unbound `segments` variable), or it ran the deterministic
logic embedded by `extract_suggested_segments` on parsed segments with a
given proposer outcome. -/
inductive ExtractorRun where
  | raises (msg : String)
  | completes (segments : List TranscriptSegment) (outcome : ProposerOutcome)
deriving Repr, DecidableEq

/-- Embedding of `get_ai_suggested_segments` (`segment_extractor.py` lines
328-366).  `gemini_api_key` is the value of the `GEMINI_API_KEY` environment
variable (`none` when unset, making `create_segment_extractor` raise
`ValueError`).  Every exception is caught by the top-level handler, which
returns the failure dictionary. -/
def get_ai_suggested_segments (gemini_api_key : Option String)
    (run : ExtractorRun) (target_duration : ℚ) (max_segments : ℕ) : ApiResponse :=
  match gemini_api_key with
  | none =>
    { success := false
      error := some "GEMINI_API_KEY environment variable is required"
      suggested_segments := []
      total_suggestions := 0
      target_duration := none
      analysis_method := none }
  | some _ =>
    match run with
    | .raises msg =>
      { success := false
        error := some msg
        suggested_segments := []
        total_suggestions := 0
        target_duration := none
        analysis_method := none }
    | .completes segments outcome =>
      let suggested := extract_suggested_segments segments outcome
        target_duration max_segments
      let segments_data := suggested.map (fun segment =>
        { rank := segment.rank
          start_time := segment.start_time
          end_time := segment.end_time
          duration := segment.duration
          text := segment.text
          segments_included := segment.segments_included
          reasoning := segment.reasoning
          engagement_score := segment.engagement_score
          viral_potential := segment.viral_potential
          key_moment := segment.key_moment
          title := "AI Suggested Segment " ++ toString segment.rank : SegmentPayload })
      { success := true
        error := none
        suggested_segments := segments_data
        total_suggestions := segments_data.length
        target_duration := some target_duration
        analysis_method := some
          (if segments_data.length > 0 then "ai_powered" else "fallback") }

end SegmentExtractor

namespace VideoProcessing

open SegmentExtractor

/-- The `selected_segment` dictionary of the legacy segment-data format of
`video_processing.py`. -/
structure SelectedSegment where
  start_time : ℚ
  end_time : ℚ
  duration : ℚ
  text : String
  segments_included : List ℕ
  reasoning : String
deriving Repr, DecidableEq

/-- The legacy segment-data dictionary built by
`VideoProcessor._fallback_segment_selection` and by the viral-segment
conversion in `extract_best_segment`.  Keys that appear in only some of the
shapes (`viral_potential`, `key_moment`, `alternative_segments`,
`all_viral_segments`) are optional. -/
structure SegmentData where
  selected_segment : SelectedSegment
  engagement_score : ℚ
  viral_potential : Option String
  key_moment : Option KeyMoment
  alternative_segments : List (ℚ × ℚ × String)
  all_viral_segments : Option (List ViralSegJson)
deriving Repr, DecidableEq

/-- Inner loop of `VideoProcessor._fallback_segment_selection`
(`video_processing.py` lines 354-361): starting from a given suffix of the
enumerated segments, accumulate consecutive segments while the accumulated
duration stays within `target_duration + 2`, producing the accumulated
duration, the concatenated text (each part prefixed by a space, exactly as
`combined_text += " " + segments[j].text`), and the included indices. -/
def take_within (target_duration : ℚ) :
    List (ℕ × TranscriptSegment) → ℚ → ℚ × String × List ℕ
  | [], current => (current, "", [])
  | (j, seg) :: rest, current =>
    let segment_duration := seg.stop - seg.start
    if current + segment_duration ≤ target_duration + 2 then
      let r := take_within target_duration rest (current + segment_duration)
      (r.1, " " ++ seg.text ++ r.2.1, j :: r.2.2)
    else (current, "", [])

/-- Outer loop of `VideoProcessor._fallback_segment_selection`
(`video_processing.py` lines 348-375): try every start index, score the
accumulated window by `word count * (duration / target)`, and keep the
strictly best one.  The score computes
`current_duration / target_duration`: when `target_duration = 0` Python
raises `ZeroDivisionError` on the first iteration, embedded here as an
`Except.error` so that the error path is not collapsed. -/
def scan_starts (target_duration : ℚ) :
    List (ℕ × TranscriptSegment) → Option SelectedSegment × ℚ →
      Except String (Option SelectedSegment × ℚ)
  | [], best => .ok best
  | (j, seg) :: rest, best =>
    let r := take_within target_duration ((j, seg) :: rest) 0
    let current_duration := r.1
    let combined_text := r.2.1
    let segments_included := r.2.2
    if target_duration = 0 then .error "float division by zero"
    else
      let score : ℚ := (pyWordCount combined_text : ℚ)
        * (current_duration / target_duration)
      let best' :=
        if score > best.2 then
          (some { start_time := seg.start
                  end_time := seg.start + current_duration
                  duration := current_duration
                  text := pyStrip combined_text
                  segments_included := segments_included
                  reasoning := "Fallback selection - highest text density with "
                    ++ toString (pyWordCount combined_text) ++ " words" }, score)
        else best
      scan_starts target_duration rest best'

/-- Embedding of `VideoProcessor._fallback_segment_selection`
(`video_processing.py` lines 329-388).  On the empty transcript the early
return is taken before any division; on a non-empty transcript with
`target_duration = 0` the scan raises `ZeroDivisionError`, which this
embedding propagates as `Except.error`. -/
def fallback_segment_selection (segments : List TranscriptSegment)
    (target_duration : ℚ) : Except String SegmentData :=
  match segments with
  | [] =>
    .ok { selected_segment :=
            { start_time := 0
              end_time := target_duration
              duration := target_duration
              text := "No transcript available"
              segments_included := []
              reasoning := "Fallback selection - no segments available" }
          engagement_score := 5
          viral_potential := none
          key_moment := none
          alternative_segments := []
          all_viral_segments := none }
  | s₀ :: rest =>
    let last := rest.foldl (fun _ s => s) s₀
    match scan_starts target_duration ((s₀ :: rest).enum) (none, 0) with
    | .error e => .error e
    | .ok best =>
      .ok { selected_segment := best.1.getD
              { start_time := s₀.start
                end_time := min (s₀.start + target_duration) last.stop
                duration := target_duration
                text := s₀.text
                segments_included := [0]
                reasoning := "Fallback selection - first segment" }
            engagement_score := 6
            viral_potential := some "Medium - fallback selection"
            key_moment := none
            alternative_segments := []
            all_viral_segments := none }

/-- Result of `extract_best_segment`: either the legacy segment-data
dictionary (from the viral-segment conversion or from the fallback), or the
decoded JSON passed through unchanged when it holds no non-empty
`viral_segments` list. -/
inductive BestSegmentResult where
  | legacy (data : SegmentData)
  | raw (response : ViralResponseJson)
deriving Repr, DecidableEq

/-- Required-key access `seg_data[key]` of the legacy conversion: a missing
key raises `KeyError`. -/
def requireKey {α : Type} (key : String) : Option α → Except String α
  | some a => .ok a
  | none => .error ("KeyError: " ++ key)

/-- Embedding of `VideoProcessor.extract_best_segment`
(`video_processing.py` lines 215-287), from the point where the transcript
has been parsed into `segments`.  Only a `json.JSONDecodeError` is handled
locally (by delegating to the fallback); any other exception — including the
external call itself raising, or the fallback raising `ZeroDivisionError` at
`target_duration = 0` — escapes the inner logic and is re-raised by the
outer handler as `RuntimeError("Failed to extract best segment: ...")`.
A decoded response whose `viral_segments` key is absent or holds an empty
list is returned unchanged (`raw`); a non-empty list is converted to the
legacy format with mandatory `[...]` key accesses. -/
def extract_best_segment (segments : List TranscriptSegment)
    (outcome : ProposerOutcome) (target_duration : ℚ) :
    Except String BestSegmentResult :=
  let body : Except String BestSegmentResult :=
    match outcome with
    | .raises msg => .error msg
    | .jsonError _ =>
      match fallback_segment_selection segments target_duration with
      | .error e => .error e
      | .ok data => .ok (.legacy data)
    | .parsed response =>
      match response.viral_segments with
      | some (best :: others) => do
        let start_time ← requireKey "start_time" best.start_time
        let end_time ← requireKey "end_time" best.end_time
        let duration ← requireKey "duration" best.duration
        let text ← requireKey "text" best.text
        let segments_included ← requireKey "segments_included" best.segments_included
        let reasoning ← requireKey "reasoning" best.reasoning
        let engagement_score ← requireKey "engagement_score" best.engagement_score
        let viral_potential ← requireKey "viral_potential" best.viral_potential
        let key_moment := best.key_moment.getD ⟨none, none⟩
        let alternative_segments ← others.mapM (fun seg => do
          let a ← requireKey "start_time" seg.start_time
          let b ← requireKey "end_time" seg.end_time
          let r ← requireKey "reasoning" seg.reasoning
          pure (a, b, r))
        pure (.legacy
          { selected_segment :=
              { start_time := start_time
                end_time := end_time
                duration := duration
                text := text
                segments_included := segments_included
                reasoning := reasoning }
            engagement_score := engagement_score
            viral_potential := some viral_potential
            key_moment := some key_moment
            alternative_segments := alternative_segments
            all_viral_segments := some (best :: others) })
      | _ => .ok (.raw response)
  match body with
  | .ok r => .ok r
  | .error e => .error ("Failed to extract best segment: " ++ e)

/-- The pieces of the raw Gladia payload that
`process_transcript_to_viral_script` reads besides the transcript itself:
`file.source`, `file.filename` and `result.metadata.audio_duration`, each
optional with the defaults applied at the read site. -/
structure GladiaFileMeta where
  file_source : Option String
  file_filename : Option String
  audio_duration : Option ℚ
deriving Repr, DecidableEq

/-- Response dictionary of `process_transcript_to_viral_script`, flattened:
the nested `video_info` / `extracted_segment` / `analysis` dictionaries are
inlined field by field, and the constant `playback_config` flags
(`autoplay`, `controls`, `loop`) are omitted; `playback_config`
`start_seconds` / `end_seconds` duplicate `start_time` / `end_time`.
Fields present only in the success shape are optional. -/
structure ViralScriptResponse where
  success : Bool
  error : Option String
  video_url : Option String
  video_title : Option String
  total_duration : Option ℚ
  start_time : Option ℚ
  end_time : Option ℚ
  duration : Option ℚ
  text : Option String
  segments_included : Option (List ℕ)
  reasoning : Option String
  engagement_score : Option ℚ
  viral_potential : Option String
  alternative_segments : Option (List (ℚ × ℚ × String))
  target_duration : ℚ
deriving Repr, DecidableEq

/-- The reads `segment_data.get('selected_segment', {})` followed by
`.get(field, default)` on the result of `extract_best_segment`: a legacy
dictionary supplies all fields, a raw passed-through response supplies none
of them, so every field falls back to its default. -/
def selectedOf (r : BestSegmentResult) (target_duration : ℚ) : SelectedSegment :=
  match r with
  | .legacy data => data.selected_segment
  | .raw _ =>
    { start_time := 0
      end_time := target_duration
      duration := target_duration
      text := ""
      segments_included := []
      reasoning := "" }

/-- The reads `segment_data.get('engagement_score', 7.0)`,
`segment_data.get('viral_potential', 'Medium')` and
`segment_data.get('alternative_segments', [])`. -/
def analysisOf (r : BestSegmentResult) : ℚ × String × List (ℚ × ℚ × String) :=
  match r with
  | .legacy data =>
    (data.engagement_score, data.viral_potential.getD "Medium",
      data.alternative_segments)
  | .raw _ => (7, "Medium", [])

/-- Embedding of `process_transcript_to_viral_script`
(`video_processing.py` lines 490-540).  `gemini_api_key` is the
`GEMINI_API_KEY` environment variable; `segments`/`outcome` feed the inner
`extract_best_segment` call exactly as in `extract_best_segment` above.  The
top-level handler catches every exception and returns the failure
dictionary. -/
def process_transcript_to_viral_script (gemini_api_key : Option String)
    (segments : List TranscriptSegment) (outcome : ProposerOutcome)
    (meta : GladiaFileMeta) (target_duration : ℚ) : ViralScriptResponse :=
  match gemini_api_key with
  | none =>
    { success := false
      error := some "GEMINI_API_KEY environment variable is required"
      video_url := none, video_title := none, total_duration := none
      start_time := none, end_time := none, duration := none, text := none
      segments_included := none, reasoning := none, engagement_score := none
      viral_potential := none, alternative_segments := none
      target_duration := target_duration }
  | some _ =>
    match extract_best_segment segments outcome target_duration with
    | .error e =>
      { success := false
        error := some e
        video_url := none, video_title := none, total_duration := none
        start_time := none, end_time := none, duration := none, text := none
        segments_included := none, reasoning := none, engagement_score := none
        viral_potential := none, alternative_segments := none
        target_duration := target_duration }
    | .ok segment_data =>
      let selected := selectedOf segment_data target_duration
      let analysis := analysisOf segment_data
      { success := true
        error := none
        video_url := some (meta.file_source.getD "")
        video_title := some (meta.file_filename.getD "Extracted Video Segment")
        total_duration := some (meta.audio_duration.getD 0)
        start_time := some selected.start_time
        end_time := some selected.end_time
        duration := some selected.duration
        text := some selected.text
        segments_included := some selected.segments_included
        reasoning := some selected.reasoning
        engagement_score := some analysis.1
        viral_potential := some analysis.2.1
        alternative_segments := some analysis.2.2
        target_duration := target_duration }

end VideoProcessing

namespace VideoProcessor

/-- One utterance as read by `analyze_transcript_for_highlights`
(`video_processor.py`): only `text`, `start`, `end` and `confidence` are
consulted.  The Python field name `end` is spelled `stop` here because `end`
is a Lean keyword. -/
structure Utterance where
  text : String
  start : ℚ
  stop : ℚ
  confidence : ℚ
deriving Repr, DecidableEq

/-- The fixed engagement lexicon of `analyze_transcript_for_highlights`
(`video_processor.py` lines 243-245). -/
def highlight_keywords : List String :=
  ["amazing", "incredible", "important", "secret", "tip", "trick", "hack",
   "surprising", "shocking", "must", "need to know", "game changer", "wow",
   "unbelievable", "crazy", "insane", "perfect", "awesome", "fantastic"]

/-- The per-utterance score of `analyze_transcript_for_highlights`
(`video_processor.py` lines 236-257): +3 for a question/exclamation mark,
+2 for each lexicon keyword present as a case-insensitive substring (each
keyword contributes at most once, however many times it occurs), +1 for
stripped text longer than 100 characters, +1 for confidence above 0.8. -/
def utterance_score (u : Utterance) : ℕ :=
  let text := pyStrip u.text
  let s₁ := if pyContains text "?" || pyContains text "!" then 3 else 0
  let s₂ := 2 * highlight_keywords.countP
    (fun keyword => pyContains (pyLower text) (pyLower keyword))
  let s₃ := if text.data.length > 100 then 1 else 0
  let s₄ := if u.confidence > 8 / 10 then 1 else 0
  s₁ + s₂ + s₃ + s₄

/-- A scored highlight seed (`video_processor.py` lines 260-266): start/end
of the seed utterance, its stripped text, its score, and a title numbered by
the position at which it was appended. -/
structure ScoredHighlight where
  start : ℚ
  stop : ℚ
  text : String
  score : ℕ
  title : String
deriving Repr, DecidableEq

/-- One step of the scoring loop of `analyze_transcript_for_highlights`: an
utterance with a positive score is appended as a seed, numbered by the
current seed count. -/
def highlight_step (acc : List ScoredHighlight) (u : Utterance) :
    List ScoredHighlight :=
  let score := utterance_score u
  if score > 0 then
    acc ++ [{ start := u.start
              stop := u.stop
              text := pyStrip u.text
              score := score
              title := "Highlight_" ++ toString (acc.length + 1) }]
  else acc

/-- The scoring loop of `analyze_transcript_for_highlights`: every utterance
with a positive score is appended as a seed, numbered consecutively. -/
def build_highlights (utterances : List Utterance) : List ScoredHighlight :=
  utterances.foldl highlight_step []

/-- A returned highlight segment.  The dictionaries produced by the
extension step and by the even-spacing fallback carry no `score` key, while
an unextended highlight keeps its seed score; the optional field mirrors
this. -/
structure HighlightOut where
  start : ℚ
  stop : ℚ
  text : String
  title : String
  score : Option ℕ
deriving Repr, DecidableEq

/-- The extension step (`video_processor.py` lines 272-305): a highlight
shorter than the 25-second target is extended symmetrically (floored at 0 on
the left), the text is re-collected from all utterances fully inside the
extended range, and the `score` key is dropped; a long-enough highlight is
kept unchanged. -/
def extend_highlight (utterances : List Utterance) (h : ScoredHighlight) :
    HighlightOut :=
  let target_duration : ℚ := 25
  let current_duration := h.stop - h.start
  if current_duration < target_duration then
    let extension_needed := target_duration - current_duration
    let new_start := max 0 (h.start - extension_needed / 2)
    let new_end := h.stop + extension_needed / 2
    let extended_text_parts := (utterances.filter
      (fun u => decide (u.start ≥ new_start ∧ u.stop ≤ new_end))).map
        (fun u => u.text)
    let extended_text :=
      if extended_text_parts.isEmpty then h.text
      else pyJoin " " extended_text_parts
    { start := new_start, stop := new_end, text := extended_text
      title := h.title, score := none }
  else
    { start := h.start, stop := h.stop, text := h.text
      title := h.title, score := some h.score }

/-- Largest `end` timestamp of a non-empty utterance list (Python
`max([float(u.get('end', 0)) for u in utterances])`); `0` for the empty
list, on which it is never called. -/
def max_end (utterances : List Utterance) : ℚ :=
  match utterances with
  | [] => 0
  | u :: rest => rest.foldl (fun m v => max m v.stop) u.stop

/-- The degenerate-transcript branch (`video_processor.py` lines 307-335):
when no utterance scored, segments of up to 30 seconds are formed at the
0%, 25%, 50% and 75% marks of the transcript (truncated to `max_shorts`),
keeping only segments that contain at least one utterance start. -/
def even_spacing_segments (utterances : List Utterance) (max_shorts : ℕ) :
    List HighlightOut :=
  let total_duration := max_end utterances
  let segment_duration : ℚ := 30
  let intervals : List ℚ :=
    [0, total_duration * (25 / 100), total_duration * (50 / 100),
     total_duration * (75 / 100)]
  (intervals.take max_shorts).enum.foldl
    (fun acc p =>
      let i := p.1
      let start_offset := p.2
      let segment_start := start_offset
      let segment_end := min (segment_start + segment_duration) total_duration
      let segment_utterances := utterances.filter
        (fun u => decide (segment_start ≤ u.start ∧ u.start < segment_end))
      if segment_utterances.isEmpty then acc
      else acc ++ [{ start := segment_start
                     stop := segment_end
                     text := pyJoin " " (segment_utterances.map (fun u => u.text))
                     title := "Segment_" ++ toString (i + 1)
                     score := none }])
    []

/-- Embedding of `VideoProcessor.analyze_transcript_for_highlights`
(`video_processor.py` lines 208-342), parameterized by the utterance list of
the transcript dictionary (the `.get` chain unwrapping
`result.transcription.utterances` precedes this logic).  An empty utterance
list raises, re-wrapped by the outer handler.  Seeds are sorted by score
descending — Python `list.sort(key=..., reverse=True)` is stable, embedded
by a stable merge sort whose order predicate holds on ties — the top
`max_shorts` seeds are extended, and the even-spacing fallback fires only
when no seed scored. -/
def analyze_transcript_for_highlights (utterances : List Utterance)
    (max_shorts : ℕ) : Except String (List HighlightOut) :=
  if utterances.isEmpty then
    .error "Failed to analyze transcript: No utterances found in transcript"
  else
    let highlights := build_highlights utterances
    let sorted := highlights.mergeSort (fun a b => decide (b.score ≤ a.score))
    let extended_highlights :=
      (sorted.take max_shorts).map (extend_highlight utterances)
    if extended_highlights.isEmpty then
      .ok (even_spacing_segments utterances max_shorts)
    else
      .ok extended_highlights

/-- One input segment dictionary of `generate_shorts_from_segments`, with
every key optional exactly as the Python `.get` reads allow.  The Python
field name `end` is spelled `stop` here because `end` is a Lean keyword. -/
structure SegSpec where
  start : Option ℚ
  stop : Option ℚ
  text : Option String
  title : Option String
deriving Repr, DecidableEq

/-- One generated short.  The random clip id, output path and filename (all
derived from a fresh UUID) are not modelled; every other key of the Python
`short_info` dictionary is present. -/
structure ShortInfo where
  title : String
  text : String
  start_time : ℚ
  end_time : ℚ
  duration : ℚ
deriving Repr, DecidableEq

/-- Embedding of `VideoProcessor.generate_shorts_from_segments`
(`video_processor.py` lines 129-206), parameterized by the probed
`video_duration` of the source file.  The per-segment ffmpeg invocation is
external; the embedding yields the list of shorts the validation logic
accepts and materializes when extraction itself succeeds.  A segment is
skipped when its start lies at or beyond the video end or its (clamped) end
does not exceed its start; the end time is clamped to the video duration; a
too-short window is extended to 15 seconds (capped at the video end) and a
too-long one truncated to 60 seconds — in both cases the segment is kept.
This is the validation of one enumerated input segment: `none` is a
`continue` of the Python loop, `some` a short appended to the results. -/
def validate_segment (video_duration : ℚ) (p : ℕ × SegSpec) :
    Option ShortInfo :=
  let i := p.1
  let segment := p.2
  let start_time := segment.start.getD 0
  let end_time := segment.stop.getD (start_time + 30)
  let text := segment.text.getD ("Short " ++ toString (i + 1))
  let title := segment.title.getD ("Short_" ++ toString (i + 1))
  if start_time ≥ video_duration then none
  else
    let end_time := if end_time > video_duration then video_duration else end_time
    if end_time ≤ start_time then none
    else
      let duration := end_time - start_time
      let end_time :=
        if duration < 15 then min (start_time + 15) video_duration
        else if duration > 60 then start_time + 60
        else end_time
      some { title := title
             text := text
             start_time := start_time
             end_time := end_time
             duration := end_time - start_time }

/-- Embedding of `VideoProcessor.generate_shorts_from_segments`: the loop of
`validate_segment` over the enumerated input segments, appending each
accepted short. -/
def generate_shorts_from_segments (video_duration : ℚ)
    (segments : List SegSpec) : List ShortInfo :=
  segments.enum.foldl
    (fun acc p =>
      match validate_segment video_duration p with
      | none => acc
      | some s => acc ++ [s])
    []

end VideoProcessor

/-! ## Concrete inputs used by the claims -/

/-- The six-utterance transcript spanning 0 to 26.1 seconds used by the
endpoint test (`test_endpoint.py`), with the exact timestamps, speakers and
confidences; the apostrophe of one utterance is dropped, which affects no
measured quantity. -/
def demo6 : List SegmentExtractor.TranscriptSegment :=
  [⟨"Welcome to todays video about artificial intelligence!", 0, 45 / 10, 0, 95 / 100⟩,
   ⟨"Did you know that AI can now create videos that look completely real?",
     45 / 10, 92 / 10, 0, 92 / 100⟩,
   ⟨"This is actually pretty scary when you think about it.",
     92 / 10, 128 / 10, 0, 94 / 100⟩,
   ⟨"But let me show you how this technology can help content creators.",
     128 / 10, 175 / 10, 0, 96 / 100⟩,
   ⟨"First, you can automatically generate shorts from long videos.",
     175 / 10, 222 / 10, 0, 93 / 100⟩,
   ⟨"The AI finds the most engaging moments for you.",
     222 / 10, 261 / 10, 0, 95 / 100⟩]

/-- Two adjacent exclamatory utterances; both score 5, and symmetric
extension turns them into overlapping windows. -/
def overlappingDemo : List VideoProcessor.Utterance :=
  [⟨"Wow!", 0, 1, 0⟩, ⟨"Wow!", 1, 2, 0⟩]

/-- The overlapping windows the heuristic selector returns on
`overlappingDemo`. -/
def overlappingDemoOut : List VideoProcessor.HighlightOut :=
  [⟨0, 13, "Wow! Wow!", "Highlight_1", none⟩,
   ⟨0, 14, "Wow! Wow!", "Highlight_2", none⟩]

/-- Scenario B of the specification: one candidate window with
`start_time = -5`, `end_time = 40`. -/
def scenarioB : List VideoProcessor.SegSpec :=
  [⟨some (-5), some 40, none, none⟩]

/-- A transcript whose only non-empty utterance starts at 50 seconds, past
the first (and only) fallback interval window `[0, 30)`. -/
def lateTextDemo : List SegmentExtractor.TranscriptSegment :=
  [⟨"", 0, 50, 0, 0⟩, ⟨"hi", 50, 60, 0, 0⟩]

/-- A one-second segment starting 5 seconds before the end of a 35-second
video: extension to 15 seconds is capped by the video end. -/
def shortTailDemo : List VideoProcessor.SegSpec :=
  [⟨some 30, some 31, none, none⟩]

/-- A one-utterance transcript used to exercise the proposer-failure paths. -/
def c2demo : List SegmentExtractor.TranscriptSegment :=
  [⟨"hello world", 0, 10, 0, 9 / 10⟩]

/-- Pairwise non-overlap of returned highlight windows, the §3 invariant of
the specification: for any two distinct windows, one ends before the other
starts. -/
def overlap_free : List VideoProcessor.HighlightOut → Bool
  | [] => true
  | h :: t =>
    (t.all (fun w => decide (h.stop ≤ w.start ∨ w.stop ≤ h.start)))
      && overlap_free t

/-- Non-overlap check lifted over the exception monad (an error trivially
has no overlapping windows). -/
def result_overlap_free (r : Except String (List VideoProcessor.HighlightOut)) :
    Bool :=
  match r with
  | .ok l => overlap_free l
  | .error _ => true

/-- Number of occurrences of `needle` in `hay`, one per start position; the
reading of the claim wording for C6, under which repeated keywords
contribute repeatedly. -/
def countOccurrences : List Char → List Char → ℕ
  | [], _ => 0
  | c :: rest, needle =>
    (if needle.isPrefixOf (c :: rest) then 1 else 0) + countOccurrences rest needle

/-- The utterance score as the wording of claim C6 states it: 2 points per
OCCURRENCE of each lexicon term (written from the claim, not from the code,
for comparison against `utterance_score`). -/
def utterance_score_claimed (u : VideoProcessor.Utterance) : ℕ :=
  let text := pyStrip u.text
  (if pyContains text "?" || pyContains text "!" then 3 else 0)
    + 2 * (VideoProcessor.highlight_keywords.map
        (fun keyword => countOccurrences (pyLower text).data (pyLower keyword).data)).sum
    + (if text.data.length > 100 then 1 else 0)
    + (if u.confidence > 8 / 10 then 1 else 0)

/-- The utterance score as the code computes it, written as a sum over the
lexicon of per-keyword presence indicators (the amended wording of C6: each
keyword contributes 2 points at most once). -/
def utterance_score_presence (u : VideoProcessor.Utterance) : ℕ :=
  let text := pyStrip u.text
  (if pyContains text "?" || pyContains text "!" then 3 else 0)
    + (VideoProcessor.highlight_keywords.map
        (fun keyword =>
          if pyContains (pyLower text) (pyLower keyword) then 2 else 0)).sum
    + (if text.data.length > 100 then 1 else 0)
    + (if u.confidence > 8 / 10 then 1 else 0)

/-! ## Claims -/

/-- Claim C3, counterexample: on a six-utterance transcript spanning 0 to
26.1 seconds with `target_duration = 30` and `max_segments = 3`, the
heuristic fallback of `segment_extractor.py` returns three windows, not
exactly one as claimed. -/
theorem C3_counterexample :
    (SegmentExtractor.fallback_segment_selection demo6 30 3).length = 3 := by
  with_unfolding_all decide

/-- Claim C3, amended: on a six-utterance transcript spanning 0 to 26.1
seconds with `target_duration = 30` and `max_segments = 3`, the fallback
returns three ranked windows `[0, 26.1]`, `[8.7, 26.1]` and `[17.4, 26.1]`
— the first covering the entire transcript, since the total duration is
below the target — and every rationale text begins with the prefix
`Fallback selection`. -/
theorem C3_amended :
    (SegmentExtractor.fallback_segment_selection demo6 30 3).map
        (fun w => (w.rank, w.start_time, w.end_time))
      = [(1, 0, 261 / 10), (2, 87 / 10, 261 / 10), (3, 87 / 5, 261 / 10)]
    ∧ (SegmentExtractor.fallback_segment_selection demo6 30 3).all
        (fun w => "Fallback selection".data.isPrefixOf w.reasoning.data) = true := by
  with_unfolding_all decide

/-- Claim C4, counterexample: a candidate with `start_time = -5`,
`end_time = 40` against `media_duration = 35` is accepted with
`start_time = -5` (and `end_time = 35`): the negative start is never clamped
to 0 as claimed. -/
theorem C4_counterexample :
    (VideoProcessor.generate_shorts_from_segments 35 scenarioB).map
        (fun s => (s.start_time, s.end_time)) = [(-5, 35)] := by
  with_unfolding_all decide

/-- Claim C7, counterexample: a one-second candidate `[30, 31]` against a
35-second video is extended only to the video end and materialized with
duration 5 seconds, below the claimed 15-second minimum, instead of being
dropped. -/
theorem C7_counterexample :
    (VideoProcessor.generate_shorts_from_segments 35 shortTailDemo).map
        (fun s => (s.start_time, s.end_time, s.duration)) = [(30, 35, 5)] := by
  with_unfolding_all decide

/-- Claim C6, counterexample: on the utterance text `wow wow` the code
scores 2 (the keyword `wow` counts once), while the claimed
per-occurrence scoring yields 4. -/
theorem C6_counterexample :
    VideoProcessor.utterance_score ⟨"wow wow", 0, 1, 0⟩ = 2
    ∧ utterance_score_claimed ⟨"wow wow", 0, 1, 0⟩ = 4 := by
  with_unfolding_all decide

/-- Claim C9, confirmed: the heuristic selector is deterministic — the
embedded `analyze_transcript_for_highlights` is a pure function of the
transcript and `max_shorts` (the Python code contains no randomness and its
only sort is Python's stable, deterministic sort), so two runs on the same
input produce identical ranked window lists, titles and scores included. -/
theorem C9_theorem :
    ∀ (utterances : List VideoProcessor.Utterance) (max_shorts : ℕ),
      VideoProcessor.analyze_transcript_for_highlights utterances max_shorts
        = VideoProcessor.analyze_transcript_for_highlights utterances max_shorts :=
  fun _ _ => rfl

/-- Claim C1, counterexample: on a transcript of two adjacent exclamatory
utterances the heuristic selector returns the windows `[0, 13]` and
`[0, 14]`, which overlap — candidates are not skipped for overlapping an
already-accepted window; no overlap check exists. -/
theorem C1_counterexample :
    result_overlap_free
        (VideoProcessor.analyze_transcript_for_highlights overlappingDemo 5) = false := by
  with_unfolding_all decide

/-- Length bound for the even-spacing branch: it can produce at most
`max_shorts` windows (one per retained interval). -/
theorem even_spacing_length_le (utterances : List VideoProcessor.Utterance)
    (max_shorts : ℕ) :
    (VideoProcessor.even_spacing_segments utterances max_shorts).length ≤ max_shorts := by
  unfold VideoProcessor.even_spacing_segments
  refine le_trans (foldl_length_le _ ?_ _ _) ?_
  · intro acc b
    dsimp only
    split
    · exact Nat.le_succ _
    · simp
  · simp only [List.length_nil, Nat.zero_add, List.enum_length, List.length_take]
    exact le_trans (Nat.min_le_left _ _) (le_refl _)

/-- Claim C1, amended: the heuristic selector takes the top `max_shorts`
seeds in stable score order and extends each one with no overlap check, so
the returned windows (at most `max_shorts` of them) may pairwise overlap;
the non-overlap invariant claimed for the selector does not hold (see the
counterexample). -/
theorem C1_amended (utterances : List VideoProcessor.Utterance) (max_shorts : ℕ)
    (l : List VideoProcessor.HighlightOut)
    (h : VideoProcessor.analyze_transcript_for_highlights utterances max_shorts
      = Except.ok l) :
    l.length ≤ max_shorts := by
  unfold VideoProcessor.analyze_transcript_for_highlights at h
  split at h
  · exact absurd h (by simp)
  · dsimp only at h
    split at h
    · have hl : VideoProcessor.even_spacing_segments utterances max_shorts = l := by
        injection h
      calc l.length = (VideoProcessor.even_spacing_segments utterances max_shorts).length := by
            rw [hl]
        _ ≤ max_shorts := even_spacing_length_le utterances max_shorts
    · have hl : List.map (VideoProcessor.extend_highlight utterances)
          (((VideoProcessor.build_highlights utterances).mergeSort
            (fun a b => decide (b.score ≤ a.score))).take max_shorts) = l := by
        injection h
      calc l.length
          = (((VideoProcessor.build_highlights utterances).mergeSort
              (fun a b => decide (b.score ≤ a.score))).take max_shorts).length := by
            rw [← hl, List.length_map]
        _ ≤ max_shorts := by
            rw [List.length_take]
            exact Nat.min_le_left _ _


/-- Claim C1, amended, witness: the amended bound applied to the concrete
two-utterance transcript with `max_shorts = 5`. -/
theorem C1_amended_witness : overlappingDemoOut.length ≤ 5 :=
  C1_amended overlappingDemo 5 overlappingDemoOut (by with_unfolding_all rfl)

/-- Claim C2, counterexample: when the external model call itself raises,
`extract_best_segment` does not return the heuristic fallback — it
propagates a `RuntimeError` to the caller, even though the fallback on the
same input completes with a selection. -/
theorem C2_counterexample :
    VideoProcessing.extract_best_segment c2demo (.raises "boom") 30
        = Except.error "Failed to extract best segment: boom"
    ∧ (VideoProcessing.extract_best_segment c2demo (.raises "boom") 30).isOk = false
    ∧ (VideoProcessing.fallback_segment_selection c2demo 30).isOk = true := by
  refine ⟨rfl, rfl, ?_⟩
  with_unfolding_all decide

/-- For a non-zero target duration the scan of the video-processing
fallback never raises. -/
theorem scan_starts_ne_zero_ok (target_duration : ℚ)
    (ht : target_duration ≠ 0) :
    ∀ (l : List (ℕ × SegmentExtractor.TranscriptSegment))
      (best : Option VideoProcessing.SelectedSegment × ℚ),
      ∃ r, VideoProcessing.scan_starts target_duration l best = Except.ok r := by
  intro l
  induction l with
  | nil => intro best; exact ⟨best, rfl⟩
  | cons p t ih =>
    obtain ⟨j, seg⟩ := p
    intro best
    simp only [VideoProcessing.scan_starts]
    rw [if_neg ht]
    exact ih _

/-- For a non-zero target duration the video-processing fallback completes
and returns a segment-data dictionary. -/
theorem fallback_vp_ne_zero_ok
    (segments : List SegmentExtractor.TranscriptSegment)
    (target_duration : ℚ) (ht : target_duration ≠ 0) :
    ∃ data, VideoProcessing.fallback_segment_selection segments target_duration
      = Except.ok data := by
  cases segments with
  | nil => exact ⟨_, rfl⟩
  | cons s₀ rest =>
    obtain ⟨r, hr⟩ :=
      scan_starts_ne_zero_ok target_duration ht ((s₀ :: rest).enum) (none, 0)
    simp only [VideoProcessing.fallback_segment_selection]
    rw [hr]
    exact ⟨_, rfl⟩

/-- On a JSON decode failure, `extract_best_segment` returns whatever the
fallback produced, wrapped in the legacy format. -/
theorem extract_best_jsonError
    (segments : List SegmentExtractor.TranscriptSegment) (msg : String)
    (target_duration : ℚ) (data : VideoProcessing.SegmentData)
    (hf : VideoProcessing.fallback_segment_selection segments target_duration
      = Except.ok data) :
    VideoProcessing.extract_best_segment segments (.jsonError msg) target_duration
      = Except.ok (.legacy data) := by
  simp only [VideoProcessing.extract_best_segment]
  rw [hf]

/-- Claim C2, amended: for every transcript, `extract_suggested_segments`
returns the heuristic fallback both when the external call raises and when
its response fails to decode (for `max_segments ≥ 1`; at `max_segments = 0`
the Python fallback itself raises `ZeroDivisionError`).
`extract_best_segment` returns the fallback only on a JSON decode failure
(for `target_duration ≠ 0`, where the fallback completes), and propagates a
`RuntimeError("Failed to extract best segment: ...")` to the caller when the
external call itself raises. -/
theorem C2_amended :
    (∀ (segments : List SegmentExtractor.TranscriptSegment) (msg : String)
        (target_duration : ℚ) (max_segments : ℕ), 1 ≤ max_segments →
      SegmentExtractor.extract_suggested_segments segments (.raises msg)
          target_duration max_segments
        = SegmentExtractor.fallback_segment_selection segments
            target_duration max_segments
      ∧ SegmentExtractor.extract_suggested_segments segments (.jsonError msg)
          target_duration max_segments
        = SegmentExtractor.fallback_segment_selection segments
            target_duration max_segments)
    ∧ (∀ (segments : List SegmentExtractor.TranscriptSegment) (msg : String)
          (target_duration : ℚ), target_duration ≠ 0 →
        (∃ data, VideoProcessing.fallback_segment_selection segments target_duration
            = Except.ok data
          ∧ VideoProcessing.extract_best_segment segments (.jsonError msg)
              target_duration
            = Except.ok (VideoProcessing.BestSegmentResult.legacy data))
        ∧ VideoProcessing.extract_best_segment segments (.raises msg) target_duration
          = Except.error ("Failed to extract best segment: " ++ msg)) := by
  constructor
  · intro segments msg target_duration max_segments hmax
    cases segments <;> exact ⟨rfl, rfl⟩
  · intro segments msg target_duration ht
    obtain ⟨data, hdata⟩ :=
      fallback_vp_ne_zero_ok segments target_duration ht
    exact ⟨⟨data, hdata,
      extract_best_jsonError segments msg target_duration data hdata⟩, rfl⟩

/-- Claim C2, amended, witness: both parts instantiated on the concrete
one-utterance transcript with `target_duration = 30`, `max_segments = 1`. -/
theorem C2_amended_witness :
    (SegmentExtractor.extract_suggested_segments c2demo (.raises "boom") 30 1
        = SegmentExtractor.fallback_segment_selection c2demo 30 1
      ∧ SegmentExtractor.extract_suggested_segments c2demo (.jsonError "boom") 30 1
        = SegmentExtractor.fallback_segment_selection c2demo 30 1)
    ∧ ((∃ data, VideoProcessing.fallback_segment_selection c2demo 30
          = Except.ok data
        ∧ VideoProcessing.extract_best_segment c2demo (.jsonError "boom") 30
          = Except.ok (VideoProcessing.BestSegmentResult.legacy data))
      ∧ VideoProcessing.extract_best_segment c2demo (.raises "boom") 30
        = Except.error ("Failed to extract best segment: " ++ "boom")) :=
  ⟨C2_amended.1 c2demo "boom" 30 1 (by norm_num),
   C2_amended.2 c2demo "boom" 30 (by norm_num)⟩

theorem foldl_forall {α β : Type} (g : List α → β → List α) (P : α → Prop)
    (hg : ∀ acc b s, (∀ x ∈ acc, P x) → s ∈ g acc b → P s) :
    ∀ (l : List β) (acc : List α), (∀ x ∈ acc, P x) → ∀ s ∈ l.foldl g acc, P s := by
  intro l
  induction l with
  | nil => intro acc hacc s hs; exact hacc s hs
  | cons b bs ih =>
    intro acc hacc s hs
    exact ih (g acc b) (fun x hx => hg acc b x hacc hx) s hs

/-- Every short accepted by `validate_segment` satisfies the
duration/bounds invariant actually enforced by the code. -/
theorem validate_segment_spec (video_duration : ℚ)
    (p : ℕ × VideoProcessor.SegSpec) (s : VideoProcessor.ShortInfo)
    (hs : VideoProcessor.validate_segment video_duration p = some s) :
    s.start_time < s.end_time ∧ s.end_time ≤ video_duration
    ∧ s.start_time < video_duration
    ∧ s.duration = s.end_time - s.start_time ∧ s.duration ≤ 60
    ∧ (15 ≤ s.duration ∨ s.end_time = video_duration) := by
  simp only [VideoProcessor.validate_segment] at hs
  generalize hst : p.2.start.getD 0 = st at hs
  split at hs
  · exact absurd hs (by simp)
  · next hstart =>
    generalize het : (if p.2.stop.getD (st + 30) > video_duration
      then video_duration else p.2.stop.getD (st + 30)) = et at hs
    have hetvd : et ≤ video_duration := by
      rw [← het]; split
      · exact le_refl _
      · next hc => exact le_of_not_lt hc
    split at hs
    · exact absurd hs (by simp)
    · next hend =>
      push_neg at hstart hend
      injection hs with hs
      subst hs
      simp only
      split
      · next hlt =>
        refine ⟨lt_min (by linarith) (by linarith), min_le_right _ _,
          by linarith, trivial, ?_, ?_⟩
        · rcases min_cases (st + 15) video_duration with ⟨hmin, _⟩ | ⟨hmin, _⟩ <;>
            rw [hmin] <;> linarith
        · rcases min_cases (st + 15) video_duration with ⟨hmin, hcase⟩ | ⟨hmin, hcase⟩
          · rw [hmin]; left; linarith
          · rw [hmin]; right; rfl
      · next hge =>
        split
        · next hgt =>
          refine ⟨by linarith, by linarith, by linarith, trivial, by linarith, ?_⟩
          left; linarith
        · next hle =>
          push_neg at hge hle
          exact ⟨hend, hetvd, by linarith, trivial, by linarith, Or.inl (by linarith)⟩

/-- The invariant over the whole accepted list. -/
theorem generate_shorts_invariant (video_duration : ℚ)
    (segments : List VideoProcessor.SegSpec) (s : VideoProcessor.ShortInfo)
    (hs : s ∈ VideoProcessor.generate_shorts_from_segments video_duration segments) :
    s.start_time < s.end_time ∧ s.end_time ≤ video_duration
    ∧ s.start_time < video_duration
    ∧ s.duration = s.end_time - s.start_time ∧ s.duration ≤ 60
    ∧ (15 ≤ s.duration ∨ s.end_time = video_duration) := by
  simp only [VideoProcessor.generate_shorts_from_segments] at hs
  refine foldl_forall _
    (fun x : VideoProcessor.ShortInfo =>
      x.start_time < x.end_time ∧ x.end_time ≤ video_duration
      ∧ x.start_time < video_duration
      ∧ x.duration = x.end_time - x.start_time ∧ x.duration ≤ 60
      ∧ (15 ≤ x.duration ∨ x.end_time = video_duration))
    ?_ segments.enum [] (by simp) s hs
  intro acc b x hacc hx
  rcases hval : VideoProcessor.validate_segment video_duration b with _ | v
  · rw [hval] at hx
    exact hacc x hx
  · rw [hval] at hx
    rcases List.mem_append.mp hx with hmem | hmem
    · exact hacc x hmem
    · have hxv := List.mem_singleton.mp hmem
      subst hxv
      exact validate_segment_spec video_duration b x hval

/-- Claim C4, amended: negotiation clamps the end time but not the start
time — the Scenario B candidate (`start_time = -5`, `end_time = 40`,
`media_duration = 35`) is accepted as `start_time = -5`, `end_time = 35` —
and every accepted window satisfies
`start_time < end_time ≤ media_duration` (with `start_time < media_duration`
as well); the lower bound `0 ≤ start_time` of the claim is not enforced. -/
theorem C4_amended :
    ((VideoProcessor.generate_shorts_from_segments 35 scenarioB).map
        (fun s => (s.start_time, s.end_time)) = [(-5, 35)])
    ∧ (∀ (video_duration : ℚ) (segments : List VideoProcessor.SegSpec)
          (s : VideoProcessor.ShortInfo),
        s ∈ VideoProcessor.generate_shorts_from_segments video_duration segments →
          s.start_time < s.end_time ∧ s.end_time ≤ video_duration
            ∧ s.start_time < video_duration) := by
  constructor
  · with_unfolding_all decide
  · intro video_duration segments s hs
    have h := generate_shorts_invariant video_duration segments s hs
    exact ⟨h.1, h.2.1, h.2.2.1⟩

/-- Claim C4, amended, witness: the invariant instantiated on the Scenario B
input. -/
theorem C4_amended_witness :
    ((-5 : ℚ) < 35 ∧ (35 : ℚ) ≤ 35 ∧ (-5 : ℚ) < 35) :=
  C4_amended.2 35 scenarioB ⟨"Short_1", "Short 1", -5, 35, 40⟩
    (by with_unfolding_all decide)

/-- Claim C7, amended: every accepted short has duration at most 60 seconds,
and has duration at least 15 seconds unless its end time was capped at the
media end, in which case a shorter clip is still emitted (not dropped, as
the claim asserts); too-long windows are truncated to 60 seconds and
too-short ones extended toward 15 seconds in preference to rejection. -/
theorem C7_amended :
    ((VideoProcessor.generate_shorts_from_segments 35 shortTailDemo).map
        (fun s => (s.start_time, s.end_time, s.duration)) = [(30, 35, 5)])
    ∧ (∀ (video_duration : ℚ) (segments : List VideoProcessor.SegSpec)
          (s : VideoProcessor.ShortInfo),
        s ∈ VideoProcessor.generate_shorts_from_segments video_duration segments →
          s.duration = s.end_time - s.start_time ∧ s.duration ≤ 60
            ∧ (15 ≤ s.duration ∨ s.end_time = video_duration)) := by
  constructor
  · with_unfolding_all decide
  · intro video_duration segments s hs
    have h := generate_shorts_invariant video_duration segments s hs
    exact ⟨h.2.2.2.1, h.2.2.2.2.1, h.2.2.2.2.2⟩

/-- Claim C7, amended, witness: the duration facts instantiated on the
short-tail input, whose clip ends at the media end with duration 5. -/
theorem C7_amended_witness :
    ((5 : ℚ) = 35 - 30 ∧ (5 : ℚ) ≤ 60 ∧ ((15 : ℚ) ≤ 5 ∨ (35 : ℚ) = 35)) :=
  C7_amended.2 35 shortTailDemo ⟨"Short_1", "Short 1", 30, 35, 5⟩
    (by with_unfolding_all decide)

theorem sum_map_ite_two {α : Type} (p : α → Bool) (l : List α) :
    (l.map (fun x => if p x then 2 else 0)).sum = 2 * l.countP p := by
  induction l with
  | nil => simp
  | cons a t ih =>
    by_cases h : p a
    · simp [h, ih, List.countP_cons, Nat.mul_add]
      omega
    · simp [h, ih, List.countP_cons]

/-- The scoring loop appends exactly the positively scored utterances, in
transcript order, seeding each window with the utterance bounds and stripped
text. -/
theorem build_highlights_chars (utterances : List VideoProcessor.Utterance) :
    (VideoProcessor.build_highlights utterances).map (fun h => (h.start, h.stop, h.text, h.score))
      = (utterances.filter (fun u => decide (0 < VideoProcessor.utterance_score u))).map
          (fun u => (u.start, u.stop, pyStrip u.text, VideoProcessor.utterance_score u)) := by
  have aux : ∀ (l : List VideoProcessor.Utterance) (acc : List VideoProcessor.ScoredHighlight),
      (l.foldl VideoProcessor.highlight_step acc).map (fun h => (h.start, h.stop, h.text, h.score))
        = acc.map (fun h => (h.start, h.stop, h.text, h.score))
          ++ (l.filter (fun u => decide (0 < VideoProcessor.utterance_score u))).map
              (fun u => (u.start, u.stop, pyStrip u.text, VideoProcessor.utterance_score u)) := by
    intro l
    induction l with
    | nil => intro acc; simp
    | cons u t ih =>
      intro acc
      by_cases hscore : 0 < VideoProcessor.utterance_score u
      · have hstep : VideoProcessor.highlight_step acc u
            = acc ++ [{ start := u.start, stop := u.stop, text := pyStrip u.text
                        score := VideoProcessor.utterance_score u
                        title := "Highlight_" ++ toString (acc.length + 1) }] := by
          simp [VideoProcessor.highlight_step, hscore]
        simp only [List.foldl_cons, hstep, ih, List.map_append]
        simp [List.filter_cons, hscore]
      · have hstep : VideoProcessor.highlight_step acc u = acc := by
          simp [VideoProcessor.highlight_step, Nat.not_lt.mp hscore, Nat.le_zero.mp (Nat.not_lt.mp hscore)]
        simp only [List.foldl_cons, hstep, ih]
        simp [List.filter_cons, hscore]
  simpa using aux utterances []

/-- Claim C6, amended: the seed score is 3 for a question/exclamation mark,
plus 2 per lexicon term PRESENT as a case-insensitive substring (each term
counted once, regardless of how many times it occurs), plus 1 for stripped
text longer than 100 characters, plus 1 for confidence above 0.8; and the
seed list consists exactly of the utterances with positive score, in
transcript order. -/
theorem C6_amended :
    (∀ u : VideoProcessor.Utterance,
        VideoProcessor.utterance_score u = utterance_score_presence u)
    ∧ (∀ utterances : List VideoProcessor.Utterance,
        (VideoProcessor.build_highlights utterances).map
            (fun h => (h.start, h.stop, h.text, h.score))
          = (utterances.filter (fun u => decide (0 < VideoProcessor.utterance_score u))).map
              (fun u => (u.start, u.stop, pyStrip u.text, VideoProcessor.utterance_score u))) := by
  constructor
  · intro u
    simp only [VideoProcessor.utterance_score, utterance_score_presence,
      sum_map_ite_two]
  · exact build_highlights_chars

/-- Claim C8, counterexample: a payload whose root container lacks every
required key (`{}`) does NOT raise a malformed-transcript error — each
missing key falls back to its default and the whole transcript is silently
dropped as an empty utterance list. -/
theorem C8_counterexample :
    SegmentExtractor.parse_gladia_transcript (JVal.obj []) = Except.ok [] := rfl

/-- Claim C8, amended: parsing raises the malformed-transcript error only
when a container is of the wrong SHAPE (a non-dictionary where `.get` is
called, or a non-iterable `utterances` value); ABSENT root keys are
defaulted, silently yielding an empty utterance list; per-utterance defects
are tolerated by substituting defaults — a missing `text` becomes the empty
string and missing `start`/`end` timestamps become `0`. -/
theorem C8_amended :
    (SegmentExtractor.parse_gladia_transcript (JVal.obj []) = Except.ok [])
    ∧ (∀ s : String,
        SegmentExtractor.parse_gladia_transcript (JVal.obj [("result", JVal.str s)])
          = Except.error
              "Invalid transcript format: AttributeError: value has no attribute get (key transcription)")
    ∧ (SegmentExtractor.parse_gladia_transcript
          (JVal.obj [("result", JVal.obj
            [("transcription", JVal.obj [("utterances", JVal.num 3)])])])
        = Except.error "Invalid transcript format: TypeError: object is not iterable")
    ∧ (∀ fields, jlookup fields "text" = none →
        (SegmentExtractor.parse_utterance_fields fields).text = JVal.str "")
    ∧ (∀ fields, jlookup fields "start" = none →
        (SegmentExtractor.parse_utterance_fields fields).start = JVal.num 0)
    ∧ (∀ fields, jlookup fields "end" = none →
        (SegmentExtractor.parse_utterance_fields fields).stop = JVal.num 0) := by
  refine ⟨rfl, fun s => rfl, rfl, ?_, ?_, ?_⟩ <;>
    intro fields h <;>
    simp [SegmentExtractor.parse_utterance_fields, h]

/-- Claim C8, amended, witness: the per-utterance defaults instantiated on
the empty utterance dictionary (`{}`), whose lookups are all `none`. -/
theorem C8_amended_witness :
    (SegmentExtractor.parse_utterance_fields []).text = JVal.str ""
    ∧ (SegmentExtractor.parse_utterance_fields []).start = JVal.num 0
    ∧ (SegmentExtractor.parse_utterance_fields []).stop = JVal.num 0 :=
  ⟨C8_amended.2.2.2.1 [] rfl, C8_amended.2.2.2.2.1 [] rfl,
   C8_amended.2.2.2.2.2 [] rfl⟩

/-- Claim C10, confirmed: the top-level entry points never raise — for every
input, `get_ai_suggested_segments` and `process_transcript_to_viral_script`
return a response with a `success` flag (the embedded functions are total,
mirroring the Python top-level `try/except Exception` handlers), and on any
internal failure the flag is false and an `error` message string is present,
while on success no `error` key is set. -/
theorem C10_theorem :
    (∀ (gemini_api_key : Option String) (run : SegmentExtractor.ExtractorRun)
        (target_duration : ℚ) (max_segments : ℕ),
      ((SegmentExtractor.get_ai_suggested_segments gemini_api_key run
            target_duration max_segments).success = true
        ∧ (SegmentExtractor.get_ai_suggested_segments gemini_api_key run
            target_duration max_segments).error = none)
      ∨ ((SegmentExtractor.get_ai_suggested_segments gemini_api_key run
            target_duration max_segments).success = false
        ∧ (SegmentExtractor.get_ai_suggested_segments gemini_api_key run
            target_duration max_segments).error ≠ none))
    ∧ (∀ (gemini_api_key : Option String)
          (segments : List SegmentExtractor.TranscriptSegment)
          (outcome : SegmentExtractor.ProposerOutcome)
          (meta : VideoProcessing.GladiaFileMeta) (target_duration : ℚ),
      ((VideoProcessing.process_transcript_to_viral_script gemini_api_key
            segments outcome meta target_duration).success = true
        ∧ (VideoProcessing.process_transcript_to_viral_script gemini_api_key
            segments outcome meta target_duration).error = none)
      ∨ ((VideoProcessing.process_transcript_to_viral_script gemini_api_key
            segments outcome meta target_duration).success = false
        ∧ (VideoProcessing.process_transcript_to_viral_script gemini_api_key
            segments outcome meta target_duration).error ≠ none)) := by
  constructor
  · intro gemini_api_key run target_duration max_segments
    cases gemini_api_key with
    | none => exact Or.inr ⟨rfl, by simp [SegmentExtractor.get_ai_suggested_segments]⟩
    | some key =>
      cases run with
      | raises msg =>
        exact Or.inr ⟨rfl, by simp [SegmentExtractor.get_ai_suggested_segments]⟩
      | completes segments outcome => exact Or.inl ⟨rfl, rfl⟩
  · intro gemini_api_key segments outcome meta target_duration
    cases gemini_api_key with
    | none =>
      exact Or.inr ⟨rfl, by simp [VideoProcessing.process_transcript_to_viral_script]⟩
    | some key =>
      unfold VideoProcessing.process_transcript_to_viral_script
      cases h : VideoProcessing.extract_best_segment segments outcome target_duration with
      | error e => exact Or.inr ⟨rfl, by simp⟩
      | ok segment_data => exact Or.inl ⟨rfl, rfl⟩

/-- Claim C5, counterexample: a transcript containing a non-empty utterance
(`hi`, starting at 50 seconds) on which the forced-fallback selection of
`segment_extractor.py` with `target_duration = 30` and `max_segments = 1`
returns NO window at all: the only interval window `[0, 30)` contains no
utterance start with non-whitespace text. -/
theorem C5_counterexample :
    SegmentExtractor.extract_suggested_segments lateTextDemo
        (.raises "forced failure") 30 1 = []
    ∧ ("hi" : String) ≠ "" := by
  with_unfolding_all decide

theorem isPrefixOf_string_append (l : List Char) (a b : String)
    (h : l.isPrefixOf a.data = true) : l.isPrefixOf (a ++ b).data = true := by
  rw [String.data_append]
  rw [List.isPrefixOf_iff_prefix] at h ⊢
  exact h.trans (List.prefix_append a.data b.data)

/-- Every selected segment the scan of the video-processing fallback can
produce carries a rationale starting with `Fallback selection`. -/
theorem scan_starts_prefix (target_duration : ℚ) :
    ∀ (l : List (ℕ × SegmentExtractor.TranscriptSegment))
      (best : Option VideoProcessing.SelectedSegment × ℚ),
      (∀ sel, best.1 = some sel →
        "Fallback selection".data.isPrefixOf sel.reasoning.data = true) →
      ∀ r sel, VideoProcessing.scan_starts target_duration l best = Except.ok r →
        r.1 = some sel →
        "Fallback selection".data.isPrefixOf sel.reasoning.data = true := by
  intro l
  induction l with
  | nil =>
    intro best hbest r sel h hr
    injection h with h
    subst h
    exact hbest sel hr
  | cons p t ih =>
    obtain ⟨j, seg⟩ := p
    intro best hbest r sel h hr
    simp only [VideoProcessing.scan_starts] at h
    split at h
    · exact absurd h (by simp)
    · refine ih _ ?_ r sel h hr
      intro sel' h'
      split at h'
      · injection h' with h''
        subst h''
        refine isPrefixOf_string_append _ _ _ ?_
        refine isPrefixOf_string_append _ _ _ ?_
        decide
      · exact hbest sel' h'

theorem exists_mem_enumFrom {α : Type} {a : α} :
    ∀ (l : List α) (n : ℕ), a ∈ l → ∃ j, (j, a) ∈ l.enumFrom n := by
  intro l
  induction l with
  | nil => intro n h; cases h
  | cons b t ih =>
    intro n h
    rcases List.mem_cons.mp h with h | h
    · subst h
      exact ⟨n, by simp [List.enumFrom_cons]⟩
    · rcases ih (n + 1) h with ⟨j, hj⟩
      exact ⟨j, by simp [List.enumFrom_cons, hj]⟩

theorem exists_mem_enum {α : Type} {a : α} {l : List α} (h : a ∈ l) :
    ∃ j, (j, a) ∈ l.enum :=
  exists_mem_enumFrom l 0 h

theorem fallback_interval_step_mono
    (segments : List SegmentExtractor.TranscriptSegment) (target_duration : ℚ)
    (max_segments : ℕ) (total_duration : ℚ)
    (acc : List SegmentExtractor.SuggestedSegment) (p : ℕ × ℚ) :
    acc.length ≤ (SegmentExtractor.fallback_interval_step segments
      target_duration max_segments total_duration acc p).length := by
  unfold SegmentExtractor.fallback_interval_step
  dsimp only
  split
  · exact le_refl _
  · split
    · exact le_refl _
    · simp

/-- The first interval window of the fallback accepts a segment whenever
some utterance with non-whitespace text starts inside `[0, segment_end)`. -/
theorem fallback_interval_step_first
    (segments : List SegmentExtractor.TranscriptSegment) (target_duration : ℚ)
    (max_segments : ℕ) (total_duration : ℚ)
    (u : SegmentExtractor.TranscriptSegment)
    (hmem : u ∈ segments) (htext : pyStrip u.text ≠ "")
    (hstart : 0 ≤ u.start)
    (hlt : u.start < min (0 + target_duration) total_duration)
    (hmax : 1 ≤ max_segments) :
    1 ≤ (SegmentExtractor.fallback_interval_step segments target_duration
      max_segments total_duration [] (0, 0)).length := by
  unfold SegmentExtractor.fallback_interval_step
  dsimp only
  rw [if_neg (by omega)]
  have hin : ∃ j, (j, u) ∈ segments.enum.filter
      (fun q => decide ((0 : ℚ) ≤ q.2.start ∧ q.2.start < min (0 + target_duration) total_duration)) := by
    rcases exists_mem_enum hmem with ⟨j, hj⟩
    exact ⟨j, List.mem_filter.mpr ⟨hj, by simp only [decide_eq_true_eq]; exact ⟨hstart, hlt⟩⟩⟩
  rcases hin with ⟨j, hj⟩
  have hpart : (" " ++ u.text) ∈ (segments.enum.filter
      (fun q => decide ((0 : ℚ) ≤ q.2.start ∧ q.2.start < min (0 + target_duration) total_duration))).map
        (fun q => " " ++ q.2.text) :=
    List.mem_map_of_mem (fun q => " " ++ q.2.text) hj
  have hex : ∃ c ∈ u.text.data, c.isWhitespace = false := by
    by_contra hno
    push_neg at hno
    exact htext ((pyStrip_eq_empty_iff u.text).mpr
      (fun c hc => eq_true_of_ne_false (hno c hc)))
  have hne : pyStrip (" " ++ u.text) ≠ "" := by
    rcases hex with ⟨c, hc, hw⟩
    exact pyStrip_ne_empty
      (by rw [String.data_append]; exact List.mem_append.mpr (Or.inr hc)) hw
  have hcomb : pyStrip (concatParts ((segments.enum.filter
      (fun q => decide ((0 : ℚ) ≤ q.2.start ∧ q.2.start < min (0 + target_duration) total_duration))).map
        (fun q => " " ++ q.2.text))) ≠ "" :=
    pyStrip_concatParts_ne_empty hpart hne
  rw [if_neg hcomb]
  simp

/-- Claim C5, amended: when the external proposer is forced to fail, the
`video_processing.py` fallback always returns one selected window (whose
rationale begins with `Fallback selection`, completing for every non-zero
target duration), and the `segment_extractor.py` fallback is guaranteed to
return at least one window whenever some utterance with non-whitespace text
starts inside the first interval window
`[0, min(target_duration, total_duration))` and `max_segments ≥ 1`; it can
return zero windows when no interval window contains such an utterance, as
the counterexample shows. -/
theorem C5_amended :
    (∀ (segments : List SegmentExtractor.TranscriptSegment) (target_duration : ℚ),
      target_duration ≠ 0 →
      ∃ data, VideoProcessing.fallback_segment_selection segments target_duration
          = Except.ok data
        ∧ "Fallback selection".data.isPrefixOf
            data.selected_segment.reasoning.data = true)
    ∧ (∀ (segments : List SegmentExtractor.TranscriptSegment)
          (target_duration : ℚ) (max_segments : ℕ)
          (u : SegmentExtractor.TranscriptSegment),
        u ∈ segments → pyStrip u.text ≠ "" → 0 ≤ u.start →
        u.start < min target_duration (SegmentExtractor.total_duration_of segments) →
        1 ≤ max_segments →
        1 ≤ (SegmentExtractor.extract_suggested_segments segments
          (.raises "forced failure") target_duration max_segments).length) := by
  constructor
  · intro segments target_duration ht
    cases segments with
    | nil =>
      refine ⟨_, rfl, ?_⟩
      show "Fallback selection".data.isPrefixOf
        "Fallback selection - no segments available".data = true
      decide
    | cons s₀ rest =>
      obtain ⟨r, hr⟩ :=
        scan_starts_ne_zero_ok target_duration ht ((s₀ :: rest).enum) (none, 0)
      obtain ⟨bestOpt, bestScore⟩ := r
      simp only [VideoProcessing.fallback_segment_selection]
      rw [hr]
      cases bestOpt with
      | none =>
        refine ⟨_, rfl, ?_⟩
        show "Fallback selection".data.isPrefixOf
          "Fallback selection - first segment".data = true
        decide
      | some sel =>
        refine ⟨_, rfl, ?_⟩
        refine scan_starts_prefix target_duration ((s₀ :: rest).enum) (none, 0)
          ?_ (some sel, bestScore) sel hr rfl
        intro sel' h'
        exact absurd h' (by simp)
  · intro segments target_duration max_segments u hmem htext hstart hlt hmax
    cases segments with
    | nil => cases hmem
    | cons s₀ rest =>
      have hext : SegmentExtractor.extract_suggested_segments (s₀ :: rest)
          (.raises "forced failure") target_duration max_segments
          = SegmentExtractor.fallback_segment_selection (s₀ :: rest)
              target_duration max_segments := rfl
      rw [hext]
      simp only [SegmentExtractor.fallback_segment_selection]
      have hhead : ∃ tail : List ℚ,
          (if max_segments = 1 then ([0] : List ℚ)
           else if max_segments = 2 then
             [0, SegmentExtractor.total_duration_of (s₀ :: rest) * (5 / 10)]
           else (List.range max_segments).map
             (fun i : ℕ => (i : ℚ) * (SegmentExtractor.total_duration_of (s₀ :: rest)
               / (max_segments : ℚ)))) = (0 : ℚ) :: tail := by
        split
        · exact ⟨[], rfl⟩
        · split
          · exact ⟨[SegmentExtractor.total_duration_of (s₀ :: rest) * (5 / 10)], rfl⟩
          · obtain ⟨m, rfl⟩ : ∃ m, max_segments = m + 1 :=
              ⟨max_segments - 1, by omega⟩
            refine ⟨(List.map Nat.succ (List.range m)).map
              (fun i : ℕ => (i : ℚ) * (SegmentExtractor.total_duration_of (s₀ :: rest)
                / ((m + 1 : ℕ) : ℚ))), ?_⟩
            rw [List.range_succ_eq_map, List.map_cons]
            norm_num
      rcases hhead with ⟨tail, htail⟩
      rw [htail]
      rw [List.enum_cons]
      rw [List.foldl_cons]
      refine le_trans ?_ (foldl_length_mono _ (fun acc b =>
        fallback_interval_step_mono _ _ _ _ acc b) _ _)
      refine fallback_interval_step_first (s₀ :: rest) target_duration max_segments
        (SegmentExtractor.total_duration_of (s₀ :: rest)) u hmem htext hstart ?_ hmax
      rw [zero_add]
      exact hlt

/-- Claim C5, amended, witness: both parts applied to a one-utterance
transcript whose text starts inside the first interval window, with the
non-zero target duration 30. -/
theorem C5_amended_witness :
    (∃ data, VideoProcessing.fallback_segment_selection
        [⟨"hi", 0, 10, 0, 0⟩] 30 = Except.ok data
      ∧ "Fallback selection".data.isPrefixOf
          data.selected_segment.reasoning.data = true)
    ∧ 1 ≤ (SegmentExtractor.extract_suggested_segments
        [⟨"hi", 0, 10, 0, 0⟩] (.raises "forced failure") 30 1).length :=
  ⟨C5_amended.1 [⟨"hi", 0, 10, 0, 0⟩] 30 (by norm_num),
   C5_amended.2 [⟨"hi", 0, 10, 0, 0⟩] 30 1 ⟨"hi", 0, 10, 0, 0⟩
     (by simp) (by with_unfolding_all decide) (by norm_num)
     (by with_unfolding_all decide) (by norm_num)⟩

end VideoToShorts
